import Mathlib

/-!
Shallow embedding of `src/main.go` of erasche/github-issue-to-mailgun-gateway.

Go strings are modelled as `List Char` (all strings appearing in the program
and in the claims are ASCII, so Go byte indices coincide with character
indices).  Go slice expressions panic when an index is out of range; that is
modelled by `Except GoPanic`.  The handlers are modelled as pure functions
from their inputs and the process-wide state (dry-run flag, identity cache,
correlation store) to an HTTP result, the new state, and the trace of
outbound provider calls they perform.
-/

abbrev Str := List Char

/-- The apostrophe character (ASCII 39), written via its code point. -/
def quoteChar : Char := Char.ofNat 39

/-- A Go runtime panic (e.g. slice bounds out of range, index out of range). -/
inductive GoPanic
  | panic
deriving DecidableEq

/-- First index at which `pat` occurs as a contiguous sublist of `s`
(character-level model of Go `strings.Index`). -/
def firstIndexOf (pat : Str) : Str → Option Nat
  | [] => if pat.isPrefixOf [] then some 0 else none
  | c :: t =>
    if pat.isPrefixOf (c :: t) then some 0
    else (firstIndexOf pat t).map (· + 1)

/-- Go `strings.Index`: first occurrence, `-1` when absent. -/
def goIndex (s pat : Str) : Int :=
  match firstIndexOf pat s with
  | some n => (n : Int)
  | none => -1

/-- Go `strings.Contains`. -/
def goContains (s pat : Str) : Bool :=
  (firstIndexOf pat s).isSome

/-- Go slice `s[a:]`: panics unless `0 ≤ a ≤ len s`. -/
def goSliceFrom (s : Str) (a : Int) : Except GoPanic Str :=
  if 0 ≤ a ∧ a ≤ (s.length : Int) then .ok (s.drop a.toNat) else .error .panic

/-- Go slice `s[0:b]` (also `s[:b]`): panics unless `0 ≤ b ≤ len s`. -/
def goSliceTo (s : Str) (b : Int) : Except GoPanic Str :=
  if 0 ≤ b ∧ b ≤ (s.length : Int) then .ok (s.take b.toNat) else .error .panic

/-- The opening marker searched by `extractEmailFromIssue`:
the Go literal is an `<a href="mailto:` prefix followed by an apostrophe. -/
def mailtoMarker : Str := "<a href=\"mailto:".toList ++ [quoteChar]

/-- The closing-anchor tag searched by `extractEmailFromIssue`. -/
def anchorClose : Str := "</a>".toList

/-- Model of `extractEmailFromIssue` from `src/main.go`, translated slice by
slice:

    body_email_start := body[strings.Index(body, marker)+len(marker):]
    email_end := strings.Index(body_email_start, "</a>")
    html_email := body_email_start[0:email_end]
    email = html_email[:strings.Index(html_email, "'")]

The Go function returns a plain `string`; its only abnormal outcome is a
runtime panic on an out-of-range slice, modelled by `Except GoPanic`. -/
def extractEmailFromIssue (body : Str) : Except GoPanic Str :=
  match goSliceFrom body (goIndex body mailtoMarker + (mailtoMarker.length : Int)) with
  | .error e => .error e
  | .ok bodyEmailStart =>
    match goSliceTo bodyEmailStart (goIndex bodyEmailStart anchorClose) with
    | .error e => .error e
    | .ok htmlEmail => goSliceTo htmlEmail (goIndex htmlEmail [quoteChar])

/-- If `pat` is a prefix of `s`, the first occurrence is at index 0. -/
theorem firstIndexOf_of_prefix {pat s : Str} (h : pat <+: s) :
    firstIndexOf pat s = some 0 := by
  cases s with
  | nil => simp [firstIndexOf, List.isPrefixOf_iff_prefix, h]
  | cons c t => simp [firstIndexOf, List.isPrefixOf_iff_prefix, h]

/-- Stepping the search past a head that does not start an occurrence. -/
theorem firstIndexOf_cons_of_not_prefix {pat : Str} {c : Char} {t : Str}
    (h : ¬ pat <+: (c :: t)) :
    firstIndexOf pat (c :: t) = (firstIndexOf pat t).map (· + 1) := by
  simp [firstIndexOf, List.isPrefixOf_iff_prefix, h]

/-- If `pat` starts `suf` and occurs nowhere in `pre ++ suf` before position
`pre.length`, then the first occurrence in `pre ++ suf` is at `pre.length`. -/
theorem firstIndexOf_append {pat : Str} (pre : Str) {suf : Str}
    (hsuf : pat <+: suf)
    (hpre : ∀ i, i < pre.length → ¬ pat <+: ((pre ++ suf).drop i)) :
    firstIndexOf pat (pre ++ suf) = some pre.length := by
  induction pre with
  | nil => simpa using firstIndexOf_of_prefix hsuf
  | cons c pre ih =>
    have h0 : ¬ pat <+: (c :: (pre ++ suf)) := by
      simpa using hpre 0 (by simp)
    rw [List.cons_append, firstIndexOf_cons_of_not_prefix h0, ih]
    · simp
    · intro i hi
      have h := hpre (i + 1) (by simpa using Nat.succ_lt_succ hi)
      rwa [List.cons_append, List.drop_succ_cons] at h

/-- A character absent from `addr` starts no occurrence inside the `addr`
part of `addr ++ rest`. -/
theorem not_prefix_singleton_drop {c : Char} {addr rest : Str} (hc : c ∉ addr) :
    ∀ i, i < addr.length → ¬ [c] <+: ((addr ++ rest).drop i) := by
  intro i hi hpre
  obtain ⟨t, ht⟩ := hpre
  rw [List.drop_append_of_le_length (le_of_lt hi),
    List.drop_eq_getElem_cons hi] at ht
  simp only [List.singleton_append, List.cons_append, List.cons.injEq] at ht
  exact hc (ht.1 ▸ List.getElem_mem hi)


/-- Fixed lengths of the literal delimiters used by the extractor. -/
theorem mailtoMarker_length : mailtoMarker.length = 17 := rfl

/-- The closing-anchor delimiter has four characters. -/
theorem anchorClose_length : anchorClose.length = 4 := rfl

/-- C8: for an issue body containing one templated contact fragment
`<a href="mailto:'ADDRESS'">…</a>` whose opening marker first occurs at the
fragment, `extractEmailFromIssue` returns exactly `ADDRESS`: the text after
the marker, cut at the next `</a>`, cut at the next quote character. -/
theorem extractEmailFromIssue_ok
    (pre addr mid post : Str)
    (hq : quoteChar ∉ addr)
    (hpre : ∀ i, i < pre.length →
      ¬ mailtoMarker <+:
        ((pre ++ mailtoMarker ++ addr ++ [quoteChar] ++ "\">".toList ++ mid ++
          anchorClose ++ post).drop i))
    (hanchor : ∀ i, i < addr.length + 3 + mid.length →
      ¬ anchorClose <+:
        ((addr ++ [quoteChar] ++ "\">".toList ++ mid ++ anchorClose ++ post).drop i)) :
    extractEmailFromIssue
      (pre ++ mailtoMarker ++ addr ++ [quoteChar] ++ "\">".toList ++ mid ++
        anchorClose ++ post) = .ok addr := by
  have h1q : ([quoteChar] : Str).length = 1 := rfl
  have hqt : ("\">".toList).length = 2 := rfl
  have b1 : pre ++ mailtoMarker ++ addr ++ [quoteChar] ++ "\">".toList ++ mid ++
        anchorClose ++ post
      = pre ++ (mailtoMarker ++
          (addr ++ [quoteChar] ++ "\">".toList ++ mid ++ anchorClose ++ post)) := by
    simp [List.append_assoc]
  have b2 : addr ++ [quoteChar] ++ "\">".toList ++ mid ++ anchorClose ++ post
      = (addr ++ [quoteChar] ++ "\">".toList ++ mid) ++ (anchorClose ++ post) := by
    simp [List.append_assoc]
  have b3 : addr ++ [quoteChar] ++ "\">".toList ++ mid
      = addr ++ ([quoteChar] ++ ("\">".toList ++ mid)) := by
    simp [List.append_assoc]
  have hPlen : (addr ++ [quoteChar] ++ "\">".toList ++ mid).length
      = addr.length + 3 + mid.length := by
    simp only [List.length_append, h1q, hqt]
  have hpre1 : ∀ i, i < pre.length →
      ¬ mailtoMarker <+:
        ((pre ++ (mailtoMarker ++
          (addr ++ [quoteChar] ++ "\">".toList ++ mid ++ anchorClose ++ post))).drop i) := by
    intro i hi
    have h := hpre i hi
    rwa [b1] at h
  have h1 : goIndex
      (pre ++ (mailtoMarker ++
        (addr ++ [quoteChar] ++ "\">".toList ++ mid ++ anchorClose ++ post)))
      mailtoMarker = (pre.length : Int) := by
    unfold goIndex
    rw [firstIndexOf_append pre (List.prefix_append _ _) hpre1]
  have h2 : goSliceFrom
      (pre ++ (mailtoMarker ++
        (addr ++ [quoteChar] ++ "\">".toList ++ mid ++ anchorClose ++ post)))
      ((pre.length : Int) + (mailtoMarker.length : Int))
      = .ok (addr ++ [quoteChar] ++ "\">".toList ++ mid ++ anchorClose ++ post) := by
    unfold goSliceFrom
    rw [if_pos]
    · congr 1
      have ht : ((pre.length : Int) + (mailtoMarker.length : Int)).toNat
          = pre.length + mailtoMarker.length := by omega
      rw [ht, ← List.append_assoc]
      exact List.drop_left' (by simp)
    · refine ⟨by omega, ?_⟩
      simp only [List.length_append]
      omega
  have hadapt : ∀ i, i < (addr ++ [quoteChar] ++ "\">".toList ++ mid).length →
      ¬ anchorClose <+:
        (((addr ++ [quoteChar] ++ "\">".toList ++ mid) ++ (anchorClose ++ post)).drop i) := by
    intro i hi
    rw [← b2]
    exact hanchor i (by rwa [hPlen] at hi)
  have h3 : goIndex
      (addr ++ [quoteChar] ++ "\">".toList ++ mid ++ anchorClose ++ post)
      anchorClose = ((addr.length + 3 + mid.length : Nat) : Int) := by
    unfold goIndex
    rw [b2, firstIndexOf_append _ (List.prefix_append _ _) hadapt, hPlen]
  have h4 : goSliceTo
      (addr ++ [quoteChar] ++ "\">".toList ++ mid ++ anchorClose ++ post)
      (((addr.length + 3 + mid.length : Nat) : Int))
      = .ok (addr ++ [quoteChar] ++ "\">".toList ++ mid) := by
    unfold goSliceTo
    rw [if_pos]
    · rw [Int.toNat_natCast, b2, ← hPlen, List.take_left]
    · refine ⟨by omega, ?_⟩
      simp only [b2, List.length_append, h1q, hqt, anchorClose_length]
      omega
  have h5 : goIndex (addr ++ [quoteChar] ++ "\">".toList ++ mid) [quoteChar]
      = (addr.length : Int) := by
    unfold goIndex
    rw [b3, firstIndexOf_append addr (List.prefix_append _ _)
      (not_prefix_singleton_drop hq)]
  have h6 : goSliceTo (addr ++ [quoteChar] ++ "\">".toList ++ mid)
      ((addr.length : Int)) = .ok addr := by
    unfold goSliceTo
    rw [if_pos]
    · rw [Int.toNat_natCast, b3, List.take_left]
    · refine ⟨by omega, ?_⟩
      simp only [List.length_append]
      omega
  unfold extractEmailFromIssue
  rw [b1, h1]
  simp only [h2, h3, h4, h5, h6]

/-- Trace entry: one outbound provider call made while handling a request. -/
inductive ExtCall
  | usersGet (username : Str)
  | mgSend (sender subject body recipient : Str)
  | issuesGet (issueNum : Int)
  | createComment (issueNum : Int) (body : Str)
deriving DecidableEq

/-- A call is an outbound delivery (a side-effecting send or comment
creation), as opposed to a read-only lookup. -/
def isOutboundDelivery : ExtCall → Bool
  | .mgSend _ _ _ _ => true
  | .createComment _ _ => true
  | _ => false

/-- Results the external collaborators return to the bridge for the current
request: the GitHub user lookup, the Mailgun send (response text and message
id), the issue fetch and the comment creation (`none` = no error). -/
structure Providers where
  nameOf : Str → Except Unit Str
  sendOutcome : Except Unit (Str × Str)
  issuesGetErr : Option Unit
  createCommentErr : Option Unit

/-- The identity cache (`gh_cache`), handle → display name. -/
abbrev Cache := List (Str × Str)

/-- The correlation store contents, key → issue number. -/
abbrev Store := List (Str × Int)

/-- First value bound to a key in an association list. -/
def lookupAssoc {α : Type} : List (Str × α) → Str → Option α
  | [], _ => none
  | (k, v) :: t, key => if k = key then some v else lookupAssoc t key

/-- Result of running a piece of the program: either a value, or `log.Fatal`
was reached and the whole process terminated. -/
inductive Outcome (α : Type)
  | ok (val : α)
  | fatal
deriving DecidableEq

namespace CorrelationStore

/-- Error returned by a duplicate `put`. -/
inductive StoreErr
  | duplicateKey
deriving DecidableEq

/-- Modelled from the spec: the CorrelationStore implementation (the `rkv`
key/value library behind `kv.Put`/`kv.Get`) is not part of `src/`; §4.3
specifies `put` as inserting a new entry and returning a no-op error, with
the store unchanged, when the key already exists. -/
def put (store : Store) (key : Str) (issueNumber : Int) : Option StoreErr × Store :=
  if (lookupAssoc store key).isSome then (some .duplicateKey, store)
  else (none, (key, issueNumber) :: store)

/-- Modelled from the spec: §4.3 specifies `get` as exact lookup, `none`
standing for NotFound. -/
def get (store : Store) (key : Str) : Option Int :=
  lookupAssoc store key

end CorrelationStore

/-- Model of `getNameForUser` from `src/main.go`: on a cache hit return the cached
name; on a miss call the GitHub users API — a provider error reaches
`log.Fatal` (process termination), success caches and returns the name.
Returns the outcome, the new cache, and the trace of provider calls. -/
def getNameForUser (env : Providers) (cache : Cache) (username : Str) :
    Outcome Str × Cache × List ExtCall :=
  match lookupAssoc cache username with
  | some humanName => (.ok humanName, cache, [])
  | none =>
    match env.nameOf username with
    | .error _ => (.fatal, cache, [.usersGet username])
    | .ok name => (.ok name, (username, name) :: cache, [.usersGet username])

/-- Model of `commentToEmail` from `src/main.go`: under dry-run it returns the empty
message id before building any message; otherwise it sends via Mailgun —
a send error reaches `log.Fatal` (process termination). -/
def commentToEmail (dryrun : Bool) (env : Providers)
    (author title comment replyTo : Str) : Outcome Str × List ExtCall :=
  if dryrun then (.ok [], [])
  else
    match env.sendOutcome with
    | .error _ =>
      (.fatal, [.mgSend (author ++ " <bugs@usegalaxy.eu>".toList)
        ("Re: ".toList ++ title) comment replyTo])
    | .ok (_resp, id) =>
      (.ok id, [.mgSend (author ++ " <bugs@usegalaxy.eu>".toList)
        ("Re: ".toList ++ title) comment replyTo])

/-- Model of `emailToComment` from `src/main.go`: the store lookup by `inReplyTo` is
commented out in the source and `issueNum` is hardcoded to `1`; the handler
fetches issue 1 (an API error is only logged), then — unless dry-run —
creates the comment on issue 1 (an API error is only logged).  The
`inReplyTo` argument and the store contents never influence the result. -/
def emailToComment (dryrun : Bool) (env : Providers) (store : Store)
    (comment inReplyTo : Str) : Outcome Unit × List ExtCall :=
  let issueNum : Int := 1
  if dryrun then (.ok (), [.issuesGet issueNum])
  else (.ok (), [.issuesGet issueNum, .createComment issueNum comment])

/-- Result of one HTTP request against a handler. -/
inductive HttpResult
  | resp (status : Nat) (body : Str)
  | panicked
  | fatal
deriving DecidableEq

/-- Go `http.StatusText` for the codes the program uses. -/
def statusText (code : Nat) : Str :=
  if code = 200 then "OK".toList
  else if code = 400 then "Bad Request".toList
  else if code = 405 then "Method Not Allowed".toList
  else if code = 406 then "Not Acceptable".toList
  else if code = 500 then "Internal Server Error".toList
  else []

/-- Body written by Go `http.Error` (the text plus a newline). -/
def httpErrorBody (code : Nat) : Str := statusText code ++ "\n".toList

/-- Model of `mailgunWebHook` from `src/main.go`.  The parsed form is a map from
field name to the list of values; the handler indexes `[0]` into the
`stripped-html`, `From` and `In-Reply-To` value lists without checking
presence, so a missing field is a runtime panic (index out of range).
Present fields — even with empty values — are passed straight to
`emailToComment` with the body prefixed `<from> wrote: \n\n`. -/
def mailgunWebHook (dryrun : Bool) (env : Providers) (store : Store)
    (method : Str) (form : Str → List Str) : HttpResult × List ExtCall :=
  if method ≠ "POST".toList then (.resp 405 (httpErrorBody 405), [])
  else
    match form "stripped-html".toList, form "From".toList,
        form "In-Reply-To".toList with
    | htmlBody :: _, from_ :: _, inReplyTo :: _ =>
      match emailToComment dryrun env store
          (from_ ++ " wrote: \n\n".toList ++ htmlBody) inReplyTo with
      | (.ok _, calls) => (.resp 200 "OK".toList, calls)
      | (.fatal, calls) => (.fatal, calls)
    | _, _, _ => (.panicked, [])

/-- The parts of the GitHub webhook JSON payload the handler reads. -/
structure GHUser where
  login : Str
deriving DecidableEq

/-- Issue number, title and body from the payload. -/
structure GHIssue where
  number : Int
  title : Str
  body : Str
deriving DecidableEq

/-- Comment author and body from the payload. -/
structure GHComment where
  user : GHUser
  body : Str
deriving DecidableEq

/-- The decoded webhook payload (`payload` struct in `src/main.go`). -/
structure Payload where
  action : Str
  issue : GHIssue
  comment : GHComment
deriving DecidableEq

/-- Payload-processing stage of `githubWebHook` from `src/main.go`: the
`created` action filter, identity resolution, address extraction, the
outbound email, and finally the correlation store write
`kv.Put(response, issueNumber)` — executed only when not dry-run and the
returned message id is non-empty, with any duplicate-key error discarded.
Returns the HTTP result, the new identity cache, the new store, and the
trace of provider calls. -/
def githubWebHookPayload (dryrun : Bool) (env : Providers) (cache : Cache)
    (store : Store) (comment : Payload) :
    HttpResult × Cache × Store × List ExtCall :=
  if comment.action ≠ "created".toList then
    (.resp 200 (httpErrorBody 200), cache, store, [])
  else
    match getNameForUser env cache comment.comment.user.login with
    | (.fatal, cache2, calls1) => (.fatal, cache2, store, calls1)
    | (.ok name, cache2, calls1) =>
      match extractEmailFromIssue comment.issue.body with
      | .error _ => (.panicked, cache2, store, calls1)
      | .ok replyTo =>
        match commentToEmail dryrun env name comment.issue.title
            comment.comment.body replyTo with
        | (.fatal, calls2) => (.fatal, cache2, store, calls1 ++ calls2)
        | (.ok response, calls2) =>
          let store2 :=
            if ¬ dryrun ∧ response ≠ [] then
              (CorrelationStore.put store response comment.issue.number).2
            else store
          (.resp 200 "OK".toList, cache2, store2, calls1 ++ calls2)

/-- The guard stage of `githubWebHook`: method, event and content-type
checks and the JSON decoding, then hand-off to the payload stage above. -/
def githubWebHook (dryrun : Bool) (env : Providers) (cache : Cache)
    (store : Store) (method ghEvent contentType : Str)
    (payload : Option Payload) : HttpResult × Cache × Store × List ExtCall :=
  if method ≠ "POST".toList then (.resp 405 (httpErrorBody 405), cache, store, [])
  else if ghEvent = "ping".toList then (.resp 200 (httpErrorBody 200), cache, store, [])
  else if ghEvent ≠ "issue_comment".toList then
    (.resp 400 (httpErrorBody 400), cache, store, [])
  else if ¬ goContains contentType "json".toList then
    (.resp 406 (httpErrorBody 406), cache, store, [])
  else
    match payload with
    | none => (.resp 500 (httpErrorBody 500), cache, store, [])
    | some comment => githubWebHookPayload dryrun env cache store comment

/-- Collaborators that all answer successfully: the identity provider
returns a display name, Mailgun accepts the send and returns message id
`m-100`, and the tracker calls succeed. -/
def envOk : Providers where
  nameOf := fun _ => .ok "Alice A.".toList
  sendOutcome := .ok ("Queued".toList, "m-100".toList)
  issuesGetErr := none
  createCommentErr := none

/-- Collaborators that all fail. -/
def envFail : Providers where
  nameOf := fun _ => .error ()
  sendOutcome := .error ()
  issuesGetErr := some ()
  createCommentErr := some ()

/-- A parsed Mailgun webhook form with all three required fields present. -/
def formOk : Str → List Str := fun k =>
  if k = "stripped-html".toList then ["hi".toList]
  else if k = "From".toList then ["a@x.org".toList]
  else if k = "In-Reply-To".toList then ["m-100".toList]
  else []

/-- A parsed Mailgun webhook form lacking the `From` field. -/
def formMissingFrom : Str → List Str := fun k =>
  if k = "stripped-html".toList then ["hi".toList]
  else if k = "In-Reply-To".toList then ["m-1".toList]
  else []

/-- A parsed Mailgun webhook form whose `From` field is present but empty. -/
def formEmptyFrom : Str → List Str := fun k =>
  if k = "stripped-html".toList then ["hi".toList]
  else if k = "In-Reply-To".toList then ["m-1".toList]
  else if k = "From".toList then [[]]
  else []

/-- An issue body holding one well-formed templated contact fragment for
`a@x.org`. -/
def demoBody : Str :=
  mailtoMarker ++ "a@x.org".toList ++ [quoteChar] ++ "\">".toList ++
    "x".toList ++ anchorClose

/-- A well-formed comment-created webhook payload on issue 7. -/
def demoPayload : Payload where
  action := "created".toList
  issue := { number := 7, title := "Bug".toList, body := demoBody }
  comment := { user := { login := "alice".toList }, body := "hello".toList }

/-- A payload whose action is `edited`. -/
def editedPayload : Payload where
  action := "edited".toList
  issue := { number := 7, title := "Bug".toList, body := demoBody }
  comment := { user := { login := "alice".toList }, body := "hello".toList }

/-- C1: the claim says the EmailToTracker dispatcher resolves the issue via
`CorrelationStore.get` and rejects a reply whose In-Reply-To key is absent
without any tracker call.  The code never consults the store: with the key
`m-unknown` absent (empty store) a tracker comment is still created — on the
hardcoded issue 1 — and even when the store maps the key to issue 7 the
comment still targets issue 1. -/
theorem c1_emailToComment_ignores_store :
    emailToComment false envOk [] "hi".toList "m-unknown".toList
      = (.ok (), [.issuesGet 1, .createComment 1 "hi".toList])
    ∧ emailToComment false envOk [("m-unknown".toList, 7)] "hi".toList
        "m-unknown".toList
      = (.ok (), [.issuesGet 1, .createComment 1 "hi".toList]) :=
  ⟨rfl, rfl⟩

/-- C3: the claim says a body without the opening marker or inner quote
yields an explicit MalformedSourceError.  The code instead panics (slice
bounds out of range) on a short marker-less body, and silently returns a
wrong address on a longer marker-less body. -/
theorem c3_extract_no_explicit_error :
    extractEmailFromIssue [] = .error .panic
    ∧ extractEmailFromIssue
        ("aaaaaaaaaaaaaaaabad".toList ++ [quoteChar] ++ "</a>".toList)
      = .ok "bad".toList :=
  ⟨rfl, rfl⟩

/-- C4: the claim says a failed provider call rejects only the current
request with a server error and never terminates the service.  The code
calls `log.Fatal` — modelled as `Outcome.fatal`, process termination — when
the identity lookup fails (cache miss) and when the Mailgun send fails. -/
theorem c4_provider_failure_is_process_fatal :
    (githubWebHook false envFail [] [] "POST".toList "issue_comment".toList
      "application/json".toList (some demoPayload)).1 = .fatal
    ∧ (commentToEmail false envFail "Alice A.".toList "Bug".toList
        "hello".toList "a@x.org".toList).1 = .fatal :=
  ⟨rfl, rfl⟩

/-- C7: the claim says a missing or empty `From`, `stripped-html` or
`In-Reply-To` field yields a MalformedSourceError and a client-error
response.  The code indexes the form values without checking: a missing
`From` is a runtime panic, and an empty `From` is processed as a success,
the comment being created with an empty author prefix. -/
theorem c7_missing_field_panics :
    mailgunWebHook false envOk [] "POST".toList formMissingFrom = (.panicked, [])
    ∧ mailgunWebHook false envOk [] "POST".toList formEmptyFrom
      = (.resp 200 "OK".toList,
         [.issuesGet 1, .createComment 1 (" wrote: \n\nhi".toList)]) :=
  ⟨rfl, rfl⟩

/-- C6 counterexample: the claim says dry-run performs no outbound external
call at all; processing a well-formed email reply under dry-run still
performs a tracker API call (the issue fetch), so the trace is not empty. -/
theorem c6_dryrun_still_calls_tracker :
    (mailgunWebHook true envOk [] "POST".toList formOk).2 = [ExtCall.issuesGet 1]
    ∧ (mailgunWebHook true envOk [] "POST".toList formOk).2 ≠ [] :=
  ⟨rfl, by decide⟩

/-- C9 counterexample: the comment body the code submits contains a space
between `wrote:` and the two newlines, so it differs from the claimed
`<From> wrote:\n\n<body>` prefix. -/
theorem c9_prefix_has_extra_space :
    (mailgunWebHook false envOk [] "POST".toList formOk).2
      = [ExtCall.issuesGet 1,
         ExtCall.createComment 1 ("a@x.org wrote: \n\nhi".toList)]
    ∧ ("a@x.org wrote: \n\nhi".toList : Str) ≠ "a@x.org wrote:\n\nhi".toList :=
  ⟨rfl, by decide⟩

/-- C2: the correlation store is write-once — after a successful
`put k v1`, a later `put k v2` returns a duplicate-key error, leaves the
store unchanged, keeps `v1` under `k`, and leaves every other key's value
as it was before the first put. -/
theorem c2_put_write_once (store : Store) (k : Str) (v1 v2 : Int) (s1 : Store)
    (h : CorrelationStore.put store k v1 = (none, s1)) :
    (CorrelationStore.put s1 k v2).1 = some .duplicateKey
    ∧ (CorrelationStore.put s1 k v2).2 = s1
    ∧ CorrelationStore.get s1 k = some v1
    ∧ ∀ k2, k2 ≠ k → CorrelationStore.get s1 k2 = CorrelationStore.get store k2 := by
  unfold CorrelationStore.put at h
  by_cases hk : (lookupAssoc store k).isSome
  · rw [if_pos hk] at h
    simp at h
  · rw [if_neg hk] at h
    simp only [Prod.mk.injEq] at h
    obtain ⟨-, rfl⟩ := h
    refine ⟨?_, ?_, ?_, ?_⟩
    · simp [CorrelationStore.put, lookupAssoc]
    · simp [CorrelationStore.put, lookupAssoc]
    · simp [CorrelationStore.get, lookupAssoc]
    · intro k2 hne
      simp [CorrelationStore.get, lookupAssoc, Ne.symm hne]

/-- Witness for C2 at a concrete store. -/
theorem c2_put_write_once_witness :
    (CorrelationStore.put [("b".toList, 1), ("a".toList, 5)] "b".toList 2).1
        = some CorrelationStore.StoreErr.duplicateKey
    ∧ (CorrelationStore.put [("b".toList, 1), ("a".toList, 5)] "b".toList 2).2
        = [("b".toList, 1), ("a".toList, 5)]
    ∧ CorrelationStore.get [("b".toList, 1), ("a".toList, 5)] "b".toList = some 1
    ∧ ∀ k2, k2 ≠ "b".toList →
        CorrelationStore.get [("b".toList, 1), ("a".toList, 5)] k2
          = CorrelationStore.get [("a".toList, 5)] k2 :=
  c2_put_write_once [("a".toList, 5)] "b".toList 1 2
    [("b".toList, 1), ("a".toList, 5)] rfl

/-- C5: round-trip — `put [] "msg-1" 42` succeeds yielding a store where
`get "msg-1"` returns 42, and `get` on any key that was never put (any key
other than `msg-1` in that store) returns NotFound (`none`). -/
theorem c5_roundtrip (k : Str) (hk : k ≠ "msg-1".toList) :
    CorrelationStore.put [] "msg-1".toList 42 = (none, [("msg-1".toList, 42)])
    ∧ CorrelationStore.get [("msg-1".toList, 42)] "msg-1".toList = some 42
    ∧ CorrelationStore.get [("msg-1".toList, 42)] k = none := by
  refine ⟨rfl, rfl, ?_⟩
  have hks : ¬ ("msg-1".toList = k) := fun h => hk h.symm
  simp only [CorrelationStore.get, lookupAssoc]
  exact if_neg hks

/-- Witness for C5 at the key `unknown`. -/
theorem c5_roundtrip_witness :
    CorrelationStore.put [] "msg-1".toList 42 = (none, [("msg-1".toList, 42)])
    ∧ CorrelationStore.get [("msg-1".toList, 42)] "msg-1".toList = some 42
    ∧ CorrelationStore.get [("msg-1".toList, 42)] "unknown".toList = none :=
  c5_roundtrip "unknown".toList (by decide)

/-- A POST `issue_comment` request with a JSON content type and a decodable
payload passes every guard and reaches the payload stage. -/
theorem githubWebHook_guards_pass (dryrun : Bool) (env : Providers)
    (cache : Cache) (store : Store) (ct : Str) (p : Payload)
    (hjson : goContains ct "json".toList = true) :
    githubWebHook dryrun env cache store "POST".toList "issue_comment".toList
      ct (some p) = githubWebHookPayload dryrun env cache store p := by
  unfold githubWebHook
  rw [if_neg (by simp), if_neg (by decide), if_neg (by simp),
    if_neg (not_not_intro hjson)]

/-- C10: a tracker event reaching the handler with any action other than
`created` is answered with a success response (HTTP 200) and produces no
provider call, no cache change and no store change. -/
theorem c10_non_created_ignored (dryrun : Bool) (env : Providers)
    (cache : Cache) (store : Store) (ct : Str) (p : Payload)
    (hjson : goContains ct "json".toList = true)
    (haction : p.action ≠ "created".toList) :
    githubWebHook dryrun env cache store "POST".toList "issue_comment".toList
      ct (some p) = (.resp 200 (httpErrorBody 200), cache, store, []) := by
  rw [githubWebHook_guards_pass dryrun env cache store ct p hjson]
  unfold githubWebHookPayload
  rw [if_pos haction]

/-- Witness for C10: the `edited` payload with a JSON content type. -/
theorem c10_non_created_ignored_witness :
    githubWebHook false envOk [] [] "POST".toList "issue_comment".toList
      "application/json".toList (some editedPayload)
      = (.resp 200 (httpErrorBody 200), [], [], []) :=
  c10_non_created_ignored false envOk [] [] "application/json".toList
    editedPayload rfl (by decide)

/-- When the identity provider answers, `getNameForUser` succeeds (from the
cache or from the provider) and performs no outbound delivery call. -/
theorem getNameForUser_ok_of (env : Providers) (cache : Cache) (u nm : Str)
    (hname : env.nameOf u = .ok nm) :
    ∃ nm2 c2 calls,
      getNameForUser env cache u = (.ok nm2, c2, calls)
      ∧ calls.filter isOutboundDelivery = [] := by
  unfold getNameForUser
  cases hcl : lookupAssoc cache u with
  | some n => exact ⟨n, cache, [], rfl, rfl⟩
  | none =>
    rw [hname]
    exact ⟨nm, (u, nm) :: cache, [.usersGet u], rfl, rfl⟩

/-- C6 (amended): with dry-run enabled, a well-formed reply in either
direction reports success, performs no outbound delivery (no email send and
no comment creation), and leaves the correlation store unchanged; read-only
provider lookups (the identity lookup on a cache miss, the issue fetch)
still occur. -/
theorem c6_dryrun_no_outbound_delivery
    (env : Providers) (cache : Cache) (store : Store) (ct : Str) (p : Payload)
    (nm addr : Str)
    (hjson : goContains ct "json".toList = true)
    (haction : ¬ p.action ≠ "created".toList)
    (hname : env.nameOf p.comment.user.login = .ok nm)
    (hex : extractEmailFromIssue p.issue.body = .ok addr)
    (form : Str → List Str) (hb fr ir : Str) (tb tf ti : List Str)
    (hfb : form "stripped-html".toList = hb :: tb)
    (hff : form "From".toList = fr :: tf)
    (hfi : form "In-Reply-To".toList = ir :: ti) :
    ((githubWebHook true env cache store "POST".toList "issue_comment".toList
        ct (some p)).1 = .resp 200 "OK".toList
      ∧ (githubWebHook true env cache store "POST".toList
          "issue_comment".toList ct (some p)).2.2.1 = store
      ∧ ((githubWebHook true env cache store "POST".toList
          "issue_comment".toList ct (some p)).2.2.2).filter isOutboundDelivery
        = [])
    ∧ ((mailgunWebHook true env store "POST".toList form).1
        = .resp 200 "OK".toList
      ∧ ((mailgunWebHook true env store "POST".toList form).2).filter
          isOutboundDelivery = []) := by
  obtain ⟨nm2, c2, calls1, hg, hfil⟩ :=
    getNameForUser_ok_of env cache p.comment.user.login nm hname
  have hG : githubWebHook true env cache store "POST".toList
      "issue_comment".toList ct (some p)
      = (.resp 200 "OK".toList, c2, store, calls1 ++ []) := by
    rw [githubWebHook_guards_pass _ _ _ _ _ _ hjson]
    unfold githubWebHookPayload
    rw [if_neg haction, hg, hex]
    rfl
  have hM : mailgunWebHook true env store "POST".toList form
      = (.resp 200 "OK".toList, [.issuesGet 1]) := by
    unfold mailgunWebHook
    rw [if_neg (by simp), hfb, hff, hfi]
    rfl
  refine ⟨⟨by rw [hG], by rw [hG], ?_⟩, by rw [hM], by rw [hM]; rfl⟩
  rw [hG]
  simpa using hfil

/-- Witness for C6: the demo payload and form under all-success providers. -/
theorem c6_dryrun_no_outbound_delivery_witness :
    ((githubWebHook true envOk [] [] "POST".toList "issue_comment".toList
        "application/json".toList (some demoPayload)).1
        = .resp 200 "OK".toList
      ∧ (githubWebHook true envOk [] [] "POST".toList "issue_comment".toList
          "application/json".toList (some demoPayload)).2.2.1 = []
      ∧ ((githubWebHook true envOk [] [] "POST".toList "issue_comment".toList
          "application/json".toList (some demoPayload)).2.2.2).filter
          isOutboundDelivery = [])
    ∧ ((mailgunWebHook true envOk [] "POST".toList formOk).1
        = .resp 200 "OK".toList
      ∧ ((mailgunWebHook true envOk [] "POST".toList formOk).2).filter
          isOutboundDelivery = []) :=
  c6_dryrun_no_outbound_delivery envOk [] [] "application/json".toList
    demoPayload "Alice A.".toList "a@x.org".toList rfl (by decide) rfl rfl
    formOk "hi".toList "a@x.org".toList "m-100".toList [] [] [] rfl rfl rfl

/-- C9 (amended): on the EmailToTracker path the comment body submitted to
the tracker equals the sender's `From` value followed by the exact string
`" wrote: \n\n"` — a space after the colon, then two newlines — followed by
the email body. -/
theorem c9_comment_prefix (env : Providers) (store : Store)
    (form : Str → List Str) (hb fr ir : Str) (tb tf ti : List Str)
    (hfb : form "stripped-html".toList = hb :: tb)
    (hff : form "From".toList = fr :: tf)
    (hfi : form "In-Reply-To".toList = ir :: ti) :
    mailgunWebHook false env store "POST".toList form
      = (.resp 200 "OK".toList,
         [.issuesGet 1,
          .createComment 1 (fr ++ " wrote: \n\n".toList ++ hb)]) := by
  unfold mailgunWebHook
  rw [if_neg (by simp), hfb, hff, hfi]
  rfl

/-- Witness for C9 at the scenario-B form. -/
theorem c9_comment_prefix_witness :
    mailgunWebHook false envOk [] "POST".toList formOk
      = (.resp 200 "OK".toList,
         [.issuesGet 1,
          .createComment 1
            ("a@x.org".toList ++ " wrote: \n\n".toList ++ "hi".toList)]) :=
  c9_comment_prefix envOk [] formOk "hi".toList "a@x.org".toList
    "m-100".toList [] [] [] rfl rfl rfl

/-- Witness for C8 at a concrete issue body. -/
theorem extractEmailFromIssue_ok_witness :
    extractEmailFromIssue
      ("z".toList ++ mailtoMarker ++ "a@x.org".toList ++ [quoteChar] ++
        "\">".toList ++ "x".toList ++ anchorClose ++ "t".toList)
      = .ok "a@x.org".toList :=
  extractEmailFromIssue_ok "z".toList "a@x.org".toList "x".toList "t".toList
    (by decide) (by decide) (by decide)
